import Mathlib

/-!
Shallow embedding of `btc_price_monitor.py` (the decision engine
`check_price_change_and_alert`, plus `load_state`) and proofs about it.

Prices, percentages and timestamps are modelled as rationals (`ℚ`); the
source works with Python floats but every claim under study is about
threshold comparisons and exact equalities on finitely many arithmetic
operations, which ℚ models faithfully.  External effects (the four
fetches and the webhook sends) are modelled as explicit inputs of each
cycle: each fetch is an `Option` value, and each of the at most four
send calls of a cycle is given its success outcome as a `Bool`.
-/

abbrev Price := ℚ
abbrev Timestamp := ℚ

/-- `PRICE_CHANGE_THRESHOLD = 500` (line 25 of the source). -/
def PRICE_CHANGE_THRESHOLD : ℚ := 500

/-- `DAILY_MAX_CHANGE_THRESHOLD = 2000` (line 28). -/
def DAILY_MAX_CHANGE_THRESHOLD : ℚ := 2000

/-- `OPEN_INTEREST_CHANGE_THRESHOLD = 10` (line 41). -/
def OPEN_INTEREST_CHANGE_THRESHOLD : ℚ := 10

/-- `FUNDING_RATE_HIGH_THRESHOLD = 0.1` (line 44). -/
def FUNDING_RATE_HIGH_THRESHOLD : ℚ := 1/10

/-- `FUNDING_RATE_LOW_THRESHOLD = -0.1` (line 45). -/
def FUNDING_RATE_LOW_THRESHOLD : ℚ := -1/10

/-- `RAPID_CHANGE_TIME_WINDOW = 60` seconds (line 49). -/
def RAPID_CHANGE_TIME_WINDOW : ℚ := 60

/-- `RAPID_CHANGE_THRESHOLD = 2.0` percent (line 51). -/
def RAPID_CHANGE_THRESHOLD : ℚ := 2

/-- One entry of `price_history` (the dict appended at lines 516-520). -/
structure PricePoint where
  timestamp : Timestamp
  price : Price
  time : String
deriving Repr, DecidableEq

/-- One entry of `daily_max_change_events` (appended at lines 591-604). -/
structure RangeEvent where
  type : String
  price : Price
  time : String
  change : Price
deriving Repr, DecidableEq

/-- One entry of `liquidation_alerts` (appended at lines 552, 705, 737).
The source dicts carry one kind-specific numeric field
(`change_percent` / `change` / `rate`); it is modelled as `value`. -/
structure DedupRecord where
  key : String
  type : String
  time : String
  value : ℚ
deriving Repr, DecidableEq

/-- The engine's view of the persisted state: the locals read at
lines 474-485 of `check_price_change_and_alert`. -/
structure MonitorState where
  last_price : Option Price
  last_check_date : Option String
  today_high : Option Price
  today_low : Option Price
  today_high_time : Option String
  today_low_time : Option String
  last_alert_price : Option Price
  daily_max_change_events : List RangeEvent
  last_open_interest : Option Price
  last_funding_rate : Option ℚ
  liquidation_alerts : List DedupRecord
  price_history : List PricePoint
deriving Repr, DecidableEq

/-- The default state returned by `load_state` when the file is absent
or unreadable (lines 222-235). -/
def defaultMonitorState : MonitorState where
  last_price := none
  last_check_date := none
  today_high := none
  today_low := none
  today_high_time := none
  today_low_time := none
  last_alert_price := none
  daily_max_change_events := []
  last_open_interest := none
  last_funding_rate := none
  liquidation_alerts := []
  price_history := []

/-- A parsed JSON state file: each field is either absent (`none`) or
present with a value; a present optional field may itself hold JSON
`null`, hence the nested `Option`. -/
structure RawStateFile where
  last_price : Option (Option Price)
  last_check_date : Option (Option String)
  today_high : Option (Option Price)
  today_low : Option (Option Price)
  today_high_time : Option (Option String)
  today_low_time : Option (Option String)
  last_alert_price : Option (Option Price)
  daily_max_change_events : Option (List RangeEvent)
  last_open_interest : Option (Option Price)
  last_funding_rate : Option (Option ℚ)
  liquidation_alerts : Option (List DedupRecord)
  price_history : Option (List PricePoint)
deriving Repr, DecidableEq

/-- Outcome of trying to read the state file: missing, unparseable, or
parsed into a dictionary. -/
inductive LoadInput where
  | absent
  | corrupt
  | parsed (raw : RawStateFile)
deriving Repr, DecidableEq

/-- The raw dictionary holding every key with its documented default
value — what `load_state` returns on the absent/corrupt paths
(lines 222-235). -/
def defaultRawStateFile : RawStateFile where
  last_price := some none
  last_check_date := some none
  today_high := some none
  today_low := some none
  today_high_time := some none
  today_low_time := some none
  last_alert_price := some none
  daily_max_change_events := some []
  last_open_interest := some none
  last_funding_rate := some none
  liquidation_alerts := some []
  price_history := some []

/-- `load_state` (lines 212-235): returns the parsed dictionary when the
file exists and parses, and the full default dictionary otherwise. -/
def load_state : LoadInput → RawStateFile
  | .parsed raw => raw
  | _ => defaultRawStateFile

/-- The engine's `state.get(...)` reads at lines 474-485: each optional
field defaults to `None` when the key is absent, each list field to
`[]`. -/
def engineView (raw : RawStateFile) : MonitorState where
  last_price := raw.last_price.getD none
  last_check_date := raw.last_check_date.getD none
  today_high := raw.today_high.getD none
  today_low := raw.today_low.getD none
  today_high_time := raw.today_high_time.getD none
  today_low_time := raw.today_low_time.getD none
  last_alert_price := raw.last_alert_price.getD none
  daily_max_change_events := raw.daily_max_change_events.getD []
  last_open_interest := raw.last_open_interest.getD none
  last_funding_rate := raw.last_funding_rate.getD none
  liquidation_alerts := raw.liquidation_alerts.getD []
  price_history := raw.price_history.getD []

/-- State as observed by the engine after a load. -/
def observedState (i : LoadInput) : MonitorState :=
  engineView (load_state i)

/-- The kinds of notification the engine can send in one cycle. -/
inductive AlertKind where
  | rapid
  | priceAlert
  | openInterest
  | fundingRate
deriving Repr, DecidableEq

/-- One call to `send_wechat_message`: which alert, whether delivery
succeeded, and the headline numeric value of the message (percent
change for rapid/open-interest, price delta for price alerts, rate for
funding alerts). -/
structure SendAttempt where
  kind : AlertKind
  delivered : Bool
  value : ℚ
deriving Repr, DecidableEq

/-- Per-cycle external inputs: the Beijing-time labels and timestamp
(lines 488-491), the four fetch results, and the delivery outcome each
of the four possible send calls would have. -/
structure CycleEnv where
  current_date : String
  current_time_str : String
  current_timestamp : Timestamp
  price : Option Price
  stats24hPercent : Option ℚ
  open_interest : Option Price
  funding_rate : Option ℚ
  sendRapidOk : Bool
  sendPriceOk : Bool
  sendOiOk : Bool
  sendFrOk : Bool
deriving Repr, DecidableEq

/-- Day-rollover reset (lines 493-504): if the stored date differs from
today's date (including the no-stored-date case) all day-scoped fields
are cleared.  `last_price` and `last_check_date` are not touched here. -/
def applyRollover (s : MonitorState) (current_date : String) : MonitorState :=
  if s.last_check_date ≠ some current_date then
    { s with
      today_high := none
      today_low := none
      today_high_time := none
      today_low_time := none
      last_alert_price := none
      daily_max_change_events := []
      liquidation_alerts := []
      price_history := [] }
  else s

/-- Dedup key of a rapid-change alert: `f"rapid_{current_time_str}"`
(line 539). -/
def rapidKey (t : String) : String := "rapid_" ++ t

/-- Dedup key of an open-interest alert: `f"oi_{current_time_str}"`
(line 691). -/
def oiKey (t : String) : String := "oi_" ++ t

/-- Dedup key of a funding-rate alert: `f"fr_{current_time_str}"`
(line 723). -/
def frKey (t : String) : String := "fr_" ++ t

/-- History pruning (lines 522-524): keep entries strictly newer than
`now - (RAPID_CHANGE_TIME_WINDOW + 300)`. -/
def pruneHistory (hist : List PricePoint) (cutoff : Timestamp) : List PricePoint :=
  hist.filter (fun p => cutoff < p.timestamp)

/-- The in-window subset (lines 529-530): entries with
`timestamp >= now - RAPID_CHANGE_TIME_WINDOW`. -/
def windowSubset (hist : List PricePoint) (now : Timestamp) : List PricePoint :=
  hist.filter (fun p => now - RAPID_CHANGE_TIME_WINDOW ≤ p.timestamp)

/-- Percent change from the earliest in-window price to the current
price (lines 533-534); `0` when the window is empty (the source never
evaluates it then). -/
def windowPct (window : List PricePoint) (cp : Price) : ℚ :=
  match window with
  | [] => 0
  | p :: _ => ((cp - p.price) / p.price) * 100

/-- Result of the rapid-change section. -/
structure RapidResult where
  history : List PricePoint
  alerts : List DedupRecord
  sends : List SendAttempt
deriving Repr, DecidableEq

/-- Rapid-change detection (lines 514-563): append the current sample,
prune, and if the one-minute window holds at least two points and the
percent change from its earliest point to the current price crosses
the threshold, send (unless the per-minute key is already recorded);
the dedup record is appended only on delivery success. -/
def rapidPhase (hist : List PricePoint) (alerts : List DedupRecord)
    (now : Timestamp) (cp : Price) (timeStr dateStr : String) (sendOk : Bool) :
    RapidResult :=
  let hist1 := pruneHistory (hist ++ [⟨now, cp, timeStr⟩])
    (now - (RAPID_CHANGE_TIME_WINDOW + 300))
  if 2 ≤ hist1.length then
    match windowSubset hist1 now with
    | p0 :: _ :: _ =>
      let pct := ((cp - p0.price) / p0.price) * 100
      if RAPID_CHANGE_THRESHOLD ≤ |pct| then
        if (alerts.map (fun a => a.key)).contains (rapidKey timeStr) then
          ⟨hist1, alerts, []⟩
        else if sendOk then
          ⟨hist1,
           alerts ++ [⟨rapidKey timeStr, "rapid_change",
                       dateStr ++ " " ++ timeStr, pct⟩],
           [⟨.rapid, true, pct⟩]⟩
        else
          ⟨hist1, alerts, [⟨.rapid, false, pct⟩]⟩
      else
        ⟨hist1, alerts, []⟩
    | _ => ⟨hist1, alerts, []⟩
  else
    ⟨hist1, alerts, []⟩

/-- High-side extreme update (lines 566-569): replace when no high is
stored or the price strictly exceeds it. -/
def updateHigh (hi : Option Price) (hiT : Option String) (cp : Price) (t : String) :
    Option Price × Option String :=
  match hi with
  | none => (some cp, some t)
  | some h => if h < cp then (some cp, some t) else (some h, hiT)

/-- Low-side extreme update (lines 571-574): strict less-than. -/
def updateLow (lo : Option Price) (loT : Option String) (cp : Price) (t : String) :
    Option Price × Option String :=
  match lo with
  | none => (some cp, some t)
  | some l => if cp < l then (some cp, some t) else (some l, loT)

/-- The duplicate-event check of lines 581-586: true when some existing
event already matches `(最高价, today_high)` or `(最低价, today_low)`. -/
def eventExists (events : List RangeEvent) (h l : Price) : Bool :=
  events.any (fun e =>
    (e.type == "最高价" && e.price == h) || (e.type == "最低价" && e.price == l))

/-- Range-event recording (lines 576-605): when both extremes are set
and their spread crosses the daily threshold, append an event for the
extreme the current price equals — unless `eventExists` holds. -/
def rangeEventPhase (events : List RangeEvent) (hi lo : Option Price)
    (hiT loT : Option String) (cp : Price) (dateStr : String) : List RangeEvent :=
  match hi, lo with
  | some h, some l =>
    let change := h - l
    if DAILY_MAX_CHANGE_THRESHOLD ≤ change then
      if eventExists events h l then events
      else if cp == h then
        events ++ [⟨"最高价", h, dateStr ++ " " ++ hiT.getD "None", change⟩]
      else if cp == l then
        events ++ [⟨"最低价", l, dateStr ++ " " ++ loT.getD "None", change⟩]
      else events
    else events
  | _, _ => events

/-- Result of the alert/rebase section: the new `last_alert_price` and
the send call made, if any. -/
structure AlertResult where
  lap : Option Price
  sends : List SendAttempt
deriving Repr, DecidableEq

/-- The alert/rebase engine (lines 607-666).  Branch 1: a baseline
exists — compare against it; on delivery success rebase to the current
price, on failure keep the baseline.  Branch 2: true cold start — set
the baseline silently.  Branch 3: prior price but no baseline — compare
against the prior price; when crossing, the baseline is first set to
the prior price (line 633) and then overwritten with the current price
on delivery success (line 664); when not crossing, the baseline is set
to the current price (line 638). -/
def alertPhase (lap lp : Option Price) (cp : Price) (sendOk : Bool) : AlertResult :=
  match lap with
  | some b =>
    if PRICE_CHANGE_THRESHOLD ≤ |cp - b| then
      if sendOk then ⟨some cp, [⟨.priceAlert, true, cp - b⟩]⟩
      else ⟨some b, [⟨.priceAlert, false, cp - b⟩]⟩
    else ⟨some b, []⟩
  | none =>
    match lp with
    | none => ⟨some cp, []⟩
    | some p =>
      if PRICE_CHANGE_THRESHOLD ≤ |cp - p| then
        if sendOk then ⟨some cp, [⟨.priceAlert, true, cp - p⟩]⟩
        else ⟨some p, [⟨.priceAlert, false, cp - p⟩]⟩
      else ⟨some cp, []⟩

/-- Result of the futures section. -/
structure FuturesResult where
  alerts : List DedupRecord
  sends : List SendAttempt
deriving Repr, DecidableEq

/-- Open-interest sub-check (lines 684-718), reached only when both
futures fetches succeeded. -/
def oiSubCheck (loi : Option Price) (alerts : List DedupRecord) (oiV : Price)
    (timeStr dateStr : String) (sendOk : Bool) : FuturesResult :=
  match loi with
  | some prev =>
    if 0 < prev then
      let chg := ((oiV - prev) / prev) * 100
      if OPEN_INTEREST_CHANGE_THRESHOLD ≤ |chg| then
        if (alerts.map (fun a => a.key)).contains (oiKey timeStr) then
          ⟨alerts, []⟩
        else if sendOk then
          ⟨alerts ++ [⟨oiKey timeStr, "open_interest",
                       dateStr ++ " " ++ timeStr, chg⟩],
           [⟨.openInterest, true, chg⟩]⟩
        else ⟨alerts, [⟨.openInterest, false, chg⟩]⟩
      else ⟨alerts, []⟩
    else ⟨alerts, []⟩
  | none => ⟨alerts, []⟩

/-- Funding-rate sub-check (lines 720-748), reached only when both
futures fetches succeeded. -/
def frSubCheck (alerts : List DedupRecord) (fr : ℚ)
    (timeStr dateStr : String) (sendOk : Bool) : FuturesResult :=
  if FUNDING_RATE_HIGH_THRESHOLD ≤ fr ∨ fr ≤ FUNDING_RATE_LOW_THRESHOLD then
    if (alerts.map (fun a => a.key)).contains (frKey timeStr) then
      ⟨alerts, []⟩
    else if sendOk then
      ⟨alerts ++ [⟨frKey timeStr, "funding_rate",
                   dateStr ++ " " ++ timeStr, fr⟩],
       [⟨.fundingRate, true, fr⟩]⟩
    else ⟨alerts, [⟨.fundingRate, false, fr⟩]⟩
  else ⟨alerts, []⟩

/-- Liquidation-risk detection (lines 672-750): the guard at line 679
requires BOTH the open-interest and the funding fetch to have
succeeded; otherwise the whole section is skipped. -/
def futuresPhase (loi : Option Price) (alerts : List DedupRecord)
    (oi : Option Price) (fd : Option ℚ) (timeStr dateStr : String)
    (sendOiOk sendFrOk : Bool) : FuturesResult :=
  match oi, fd with
  | some oiV, some fr =>
    let r1 := oiSubCheck loi alerts oiV timeStr dateStr sendOiOk
    let r2 := frSubCheck r1.alerts fr timeStr dateStr sendFrOk
    ⟨r2.alerts, r1.sends ++ r2.sends⟩
  | _, _ => ⟨alerts, []⟩

/-- `last_open_interest` for the saved state (line 762): the fresh
reading when its fetch succeeded, the carried-over value otherwise. -/
def nextOpenInterest (oi loi : Option Price) : Option Price :=
  match oi with
  | some v => some v
  | none => loi

/-- `last_funding_rate` for the saved state (line 763). -/
def nextFundingRate (fd lfr : Option ℚ) : Option ℚ :=
  match fd with
  | some v => some v
  | none => lfr

/-- One full invocation of `check_price_change_and_alert` given the
loaded state.  Result: `none` when the cycle aborted at line 510
(price fetch failed, state file not rewritten), otherwise the state
saved at line 767; plus the list of send calls in program order. -/
def runCycle (s : MonitorState) (env : CycleEnv) :
    Option MonitorState × List SendAttempt :=
  let s1 := applyRollover s env.current_date
  match env.price with
  | none => (none, [])
  | some cp =>
    let r := rapidPhase s1.price_history s1.liquidation_alerts
      env.current_timestamp cp env.current_time_str env.current_date
      env.sendRapidOk
    let hiP := updateHigh s1.today_high s1.today_high_time cp env.current_time_str
    let loP := updateLow s1.today_low s1.today_low_time cp env.current_time_str
    let events := rangeEventPhase s1.daily_max_change_events hiP.1 loP.1
      hiP.2 loP.2 cp env.current_date
    let a := alertPhase s1.last_alert_price s1.last_price cp env.sendPriceOk
    let f := futuresPhase s1.last_open_interest r.alerts env.open_interest
      env.funding_rate env.current_time_str env.current_date
      env.sendOiOk env.sendFrOk
    (some
      { last_price := some cp
        last_check_date := some env.current_date
        today_high := hiP.1
        today_low := loP.1
        today_high_time := hiP.2
        today_low_time := loP.2
        last_alert_price := a.lap
        daily_max_change_events := events
        last_open_interest := nextOpenInterest env.open_interest s1.last_open_interest
        last_funding_rate := nextFundingRate env.funding_rate s1.last_funding_rate
        liquidation_alerts := f.alerts
        price_history := r.history },
     r.sends ++ a.sends ++ f.sends)

/-- The on-disk state after a cycle: unchanged when the cycle aborted. -/
def stepState (s : MonitorState) (env : CycleEnv) : MonitorState :=
  match (runCycle s env).1 with
  | some s2 => s2
  | none => s

/-- Iterating cycles over a list of per-cycle environments. -/
def runCycles (s : MonitorState) (envs : List CycleEnv) : MonitorState :=
  match envs with
  | [] => s
  | e :: es => runCycles (stepState s e) es

/-- All send calls made over a list of cycles, in order. -/
def runSends (s : MonitorState) (envs : List CycleEnv) : List SendAttempt :=
  match envs with
  | [] => []
  | e :: es => (runCycle s e).2 ++ runSends (stepState s e) es

/-- A concrete rapid-change dedup record, used in witnesses. -/
def rapidRecordExample : DedupRecord :=
  ⟨rapidKey "12:00", "rapid_change", "2026-01-01 12:00", 3⟩

/-- A range event already recording today's high, used as concrete
input of counterexamples and witnesses. -/
def highEventExample : RangeEvent :=
  ⟨"最高价", 62000, "2026-01-01 10:00", 2500⟩

/-- A state holding a prior open-interest reading on an already-started
day (for the futures counterexample). -/
def futuresStateExample : MonitorState where
  last_price := none
  last_check_date := some "2026-01-01"
  today_high := none
  today_low := none
  today_high_time := none
  today_low_time := none
  last_alert_price := none
  daily_max_change_events := []
  last_open_interest := some 1000
  last_funding_rate := some 0
  liquidation_alerts := []
  price_history := []

/-- An environment whose open-interest fetch succeeded (1150, a +15%
swing) but whose funding fetch failed. -/
def futuresEnvExample : CycleEnv where
  current_date := "2026-01-01"
  current_time_str := "12:00"
  current_timestamp := 1000
  price := some 60000
  stats24hPercent := none
  open_interest := some 1150
  funding_rate := none
  sendRapidOk := true
  sendPriceOk := true
  sendOiOk := true
  sendFrOk := true

/-- Invariant: no two recorded range events share the same
(type, price) pair. -/
def NoDupTypePrice (events : List RangeEvent) : Prop :=
  events.Pairwise (fun a b => ¬ (a.type = b.type ∧ a.price = b.price))

/-- Number of delivered rapid-change alerts among a list of send calls. -/
def rapidDeliveredCount (sends : List SendAttempt) : Nat :=
  (sends.filter (fun a => a.kind == AlertKind.rapid && a.delivered)).length

/-- The sample prices a list of cycles observes (successful fetches). -/
def observedPrices (envs : List CycleEnv) : List Price :=
  envs.filterMap (fun e => e.price)

/-- The pruned history after appending the current sample
(lines 516-524). -/
def rapidHist (hist : List PricePoint) (now : Timestamp) (cp : Price)
    (t : String) : List PricePoint :=
  pruneHistory (hist ++ [⟨now, cp, t⟩]) (now - (RAPID_CHANGE_TIME_WINDOW + 300))

/-- The one-minute window over the pruned history (lines 529-530). -/
def rapidWindow (hist : List PricePoint) (now : Timestamp) (cp : Price)
    (t : String) : List PricePoint :=
  windowSubset (rapidHist hist now cp t) now

/-- The condition under which the rapid-change detector attempts a
send: at least two in-window points, percent change from the earliest
in-window point at or above the threshold, and the per-minute key not
yet recorded. -/
def rapidFire (hist : List PricePoint) (alerts : List DedupRecord)
    (now : Timestamp) (cp : Price) (t : String) : Prop :=
  2 ≤ (rapidWindow hist now cp t).length ∧
  RAPID_CHANGE_THRESHOLD ≤ |windowPct (rapidWindow hist now cp t) cp| ∧
  (alerts.map (fun a => a.key)).contains (rapidKey t) = false

/-! ## Helper lemmas -/

theorem rapidKey_ne_oiKey (t u : String) : rapidKey t ≠ oiKey u := by
  intro h
  have h2 : (rapidKey t).data = (oiKey u).data := by rw [h]
  simp [rapidKey, oiKey, String.data_append] at h2

theorem rapidKey_ne_frKey (t u : String) : rapidKey t ≠ frKey u := by
  intro h
  have h2 : (rapidKey t).data = (frKey u).data := by rw [h]
  simp [rapidKey, frKey, String.data_append] at h2

theorem oiKey_ne_frKey (t u : String) : oiKey t ≠ frKey u := by
  intro h
  have h2 : (oiKey t).data = (frKey u).data := by rw [h]
  simp [oiKey, frKey, String.data_append] at h2

/-! ## Claims -/

/-- C1: for every sample where a baseline (`last_alert_price`) exists,
an alert is attempted if and only if `|current - baseline| ≥ 500`; on
delivery success the baseline is rebased to the current price, on
delivery failure it is left unchanged, and when the threshold is not
crossed nothing is sent and the baseline is kept. -/
theorem alertPhase_baseline_spec (b : Price) (lp : Option Price) (cp : Price)
    (sendOk : Bool) :
    ((alertPhase (some b) lp cp sendOk).sends ≠ [] ↔
       PRICE_CHANGE_THRESHOLD ≤ |cp - b|) ∧
    (PRICE_CHANGE_THRESHOLD ≤ |cp - b| →
       (alertPhase (some b) lp cp sendOk).sends =
         [⟨AlertKind.priceAlert, sendOk, cp - b⟩] ∧
       (sendOk = true → (alertPhase (some b) lp cp sendOk).lap = some cp) ∧
       (sendOk = false → (alertPhase (some b) lp cp sendOk).lap = some b)) ∧
    (|cp - b| < PRICE_CHANGE_THRESHOLD →
       (alertPhase (some b) lp cp sendOk).lap = some b ∧
       (alertPhase (some b) lp cp sendOk).sends = []) := by
  unfold alertPhase
  rcases le_or_lt PRICE_CHANGE_THRESHOLD |cp - b| with h | h
  · cases sendOk <;> simp [h, not_lt.mpr h]
  · cases sendOk <;> simp [h, not_le.mpr h]

unseal Rat.add Rat.sub Rat.mul Rat.inv in
/-- Witness for C1 at baseline 60000, sample 60550, delivery success. -/
theorem alertPhase_baseline_spec_witness :
    (alertPhase (some 60000) (some 60000) 60550 true).sends =
      [⟨AlertKind.priceAlert, true, 60550 - 60000⟩] ∧
    (alertPhase (some 60000) (some 60000) 60550 true).lap = some 60550 := by
  have h := alertPhase_baseline_spec 60000 (some 60000) 60550 true
  have hth : PRICE_CHANGE_THRESHOLD ≤ |(60550:ℚ) - 60000| := by decide
  exact ⟨(h.2.1 hth).1, (h.2.1 hth).2.1 rfl⟩

unseal Rat.add Rat.sub Rat.mul Rat.inv in
/-- C2 counterexample: prior price 60000, no baseline, current price
60550, delivery succeeds.  The claim says the baseline becomes the
prior price (60000); the code sets it to the current price (60550). -/
theorem alertPhase_fallback_rebase_cex :
    PRICE_CHANGE_THRESHOLD ≤ |(60550:ℚ) - 60000| ∧
    (alertPhase none (some 60000) 60550 true).lap = some 60550 ∧
    (alertPhase none (some 60000) 60550 true).lap ≠ some 60000 := by decide

/-- C2 amended: in the fallback branch (prior price exists, no
baseline), if `|current - prior| ≥ 500` an alert is attempted with the
prior price as implied baseline (the reported delta is current − prior);
on delivery success the baseline is set to the CURRENT price, on
delivery failure it is set to the prior price; if the threshold is not
crossed the baseline is set to the current price and nothing is sent. -/
theorem alertPhase_fallback_spec (p cp : Price) (sendOk : Bool) :
    (PRICE_CHANGE_THRESHOLD ≤ |cp - p| →
       (alertPhase none (some p) cp sendOk).sends =
         [⟨AlertKind.priceAlert, sendOk, cp - p⟩] ∧
       (sendOk = true → (alertPhase none (some p) cp sendOk).lap = some cp) ∧
       (sendOk = false → (alertPhase none (some p) cp sendOk).lap = some p)) ∧
    (|cp - p| < PRICE_CHANGE_THRESHOLD →
       (alertPhase none (some p) cp sendOk).lap = some cp ∧
       (alertPhase none (some p) cp sendOk).sends = []) := by
  unfold alertPhase
  rcases le_or_lt PRICE_CHANGE_THRESHOLD |cp - p| with h | h
  · cases sendOk <;> simp [h, not_lt.mpr h]
  · cases sendOk <;> simp [h, not_le.mpr h]

unseal Rat.add Rat.sub Rat.mul Rat.inv in
/-- Witness for the amended C2 at prior 60000, current 60550. -/
theorem alertPhase_fallback_spec_witness :
    (alertPhase none (some 60000) 60550 true).sends =
      [⟨AlertKind.priceAlert, true, 60550 - 60000⟩] ∧
    (alertPhase none (some 60000) 60550 true).lap = some 60550 := by
  have h := alertPhase_fallback_spec 60000 60550 true
  have hth : PRICE_CHANGE_THRESHOLD ≤ |(60550:ℚ) - 60000| := by decide
  exact ⟨(h.1 hth).1, (h.1 hth).2.1 rfl⟩

/-- C8: if the current-price fetch is unavailable the cycle aborts with
no state mutation — the state file is not rewritten (`runCycle` yields
`none`, so the on-disk state is exactly the prior one) and no send of
any kind is attempted. -/
theorem cycle_abort_spec (s : MonitorState) (env : CycleEnv)
    (hp : env.price = none) :
    runCycle s env = (none, []) ∧ stepState s env = s := by
  have h1 : runCycle s env = (none, []) := by
    unfold runCycle
    rw [hp]
  refine ⟨h1, ?_⟩
  unfold stepState
  rw [h1]

/-- Witness for C8: a concrete failed-fetch cycle. -/
theorem cycle_abort_spec_witness :
    runCycle defaultMonitorState
      ⟨"2026-01-01", "12:00", 1000, none, none, none, none,
       true, true, true, true⟩ = (none, []) ∧
    stepState defaultMonitorState
      ⟨"2026-01-01", "12:00", 1000, none, none, none, none,
       true, true, true, true⟩ = defaultMonitorState :=
  cycle_abort_spec defaultMonitorState _ rfl

/-- C9: state load never fails — an absent or corrupt file yields the
full documented default record, and for a parsed file each absent field
is observed by the engine with its documented default (optional fields
default to `none`, list fields to `[]`). -/
theorem load_state_defaults_spec :
    (∀ i : LoadInput, (i = LoadInput.absent ∨ i = LoadInput.corrupt) →
       observedState i = defaultMonitorState) ∧
    (∀ raw : RawStateFile,
       (raw.last_price = none →
          (observedState (LoadInput.parsed raw)).last_price = none) ∧
       (raw.last_check_date = none →
          (observedState (LoadInput.parsed raw)).last_check_date = none) ∧
       (raw.today_high = none →
          (observedState (LoadInput.parsed raw)).today_high = none) ∧
       (raw.today_low = none →
          (observedState (LoadInput.parsed raw)).today_low = none) ∧
       (raw.today_high_time = none →
          (observedState (LoadInput.parsed raw)).today_high_time = none) ∧
       (raw.today_low_time = none →
          (observedState (LoadInput.parsed raw)).today_low_time = none) ∧
       (raw.last_alert_price = none →
          (observedState (LoadInput.parsed raw)).last_alert_price = none) ∧
       (raw.daily_max_change_events = none →
          (observedState (LoadInput.parsed raw)).daily_max_change_events = []) ∧
       (raw.last_open_interest = none →
          (observedState (LoadInput.parsed raw)).last_open_interest = none) ∧
       (raw.last_funding_rate = none →
          (observedState (LoadInput.parsed raw)).last_funding_rate = none) ∧
       (raw.liquidation_alerts = none →
          (observedState (LoadInput.parsed raw)).liquidation_alerts = []) ∧
       (raw.price_history = none →
          (observedState (LoadInput.parsed raw)).price_history = [])) := by
  constructor
  · rintro i (rfl | rfl) <;> rfl
  · intro raw
    refine ⟨?_, ?_, ?_, ?_, ?_, ?_, ?_, ?_, ?_, ?_, ?_, ?_⟩ <;>
      intro h <;> simp [observedState, load_state, engineView, h]

/-- Witness for C9: the absent-file case and a parsed file with every
key missing. -/
theorem load_state_defaults_spec_witness :
    observedState LoadInput.absent = defaultMonitorState ∧
    (observedState (LoadInput.parsed
       ⟨none, none, none, none, none, none, none, none, none, none, none,
        none⟩)).last_alert_price = none := by
  refine ⟨load_state_defaults_spec.1 LoadInput.absent (Or.inl rfl), ?_⟩
  exact (load_state_defaults_spec.2
    ⟨none, none, none, none, none, none, none, none, none, none, none,
     none⟩).2.2.2.2.2.2.1 rfl

/-- C10: the three per-minute dedup key families carry distinct kind
prefixes, so keys of different kinds never coincide (even across
different minute labels), and appending a dedup record of one kind
never changes whether the membership test that gates another kind
succeeds. -/
theorem dedup_keys_kind_disjoint :
    (∀ t u : String,
       rapidKey t ≠ oiKey u ∧ rapidKey t ≠ frKey u ∧ oiKey t ≠ frKey u) ∧
    (∀ (alerts : List DedupRecord) (r : DedupRecord) (t u : String),
       (r.key = oiKey u ∨ r.key = frKey u) →
       (rapidKey t ∈ (alerts ++ [r]).map (fun a => a.key) ↔
        rapidKey t ∈ alerts.map (fun a => a.key))) ∧
    (∀ (alerts : List DedupRecord) (r : DedupRecord) (t u : String),
       (r.key = rapidKey u ∨ r.key = frKey u) →
       (oiKey t ∈ (alerts ++ [r]).map (fun a => a.key) ↔
        oiKey t ∈ alerts.map (fun a => a.key))) ∧
    (∀ (alerts : List DedupRecord) (r : DedupRecord) (t u : String),
       (r.key = rapidKey u ∨ r.key = oiKey u) →
       (frKey t ∈ (alerts ++ [r]).map (fun a => a.key) ↔
        frKey t ∈ alerts.map (fun a => a.key))) := by
  refine ⟨fun t u => ⟨rapidKey_ne_oiKey t u, rapidKey_ne_frKey t u,
    oiKey_ne_frKey t u⟩, ?_, ?_, ?_⟩ <;>
    rintro alerts r t u (hk | hk) <;>
    simp [hk, List.mem_append] <;> intro h
  · exact absurd h (rapidKey_ne_oiKey t u)
  · exact absurd h (rapidKey_ne_frKey t u)
  · exact absurd h.symm (rapidKey_ne_oiKey u t)
  · exact absurd h (oiKey_ne_frKey t u)
  · exact absurd h.symm (rapidKey_ne_frKey u t)
  · exact absurd h.symm (oiKey_ne_frKey u t)

/-- Witness for C10 at concrete minute labels and a concrete list. -/
theorem dedup_keys_kind_disjoint_witness :
    rapidKey "12:00" ≠ oiKey "12:00" ∧
    (oiKey "12:00" ∈
       (([] : List DedupRecord) ++ [rapidRecordExample]).map (fun a => a.key) ↔
     oiKey "12:00" ∈ ([] : List DedupRecord).map (fun a => a.key)) :=
  ⟨(dedup_keys_kind_disjoint.1 "12:00" "12:00").1,
   dedup_keys_kind_disjoint.2.2.1 [] rapidRecordExample
     "12:00" "12:00" (Or.inl rfl)⟩

theorem runCycle_none (s : MonitorState) (env : CycleEnv)
    (hp : env.price = none) : runCycle s env = (none, []) := by
  unfold runCycle
  rw [hp]

theorem stepState_none (s : MonitorState) (env : CycleEnv)
    (hp : env.price = none) : stepState s env = s := by
  unfold stepState
  rw [runCycle_none s env hp]

theorem runCycle_some (s : MonitorState) (env : CycleEnv) (cp : Price)
    (hp : env.price = some cp) :
    runCycle s env =
      (some
        { last_price := some cp
          last_check_date := some env.current_date
          today_high := (updateHigh (applyRollover s env.current_date).today_high
            (applyRollover s env.current_date).today_high_time cp
            env.current_time_str).1
          today_low := (updateLow (applyRollover s env.current_date).today_low
            (applyRollover s env.current_date).today_low_time cp
            env.current_time_str).1
          today_high_time := (updateHigh (applyRollover s env.current_date).today_high
            (applyRollover s env.current_date).today_high_time cp
            env.current_time_str).2
          today_low_time := (updateLow (applyRollover s env.current_date).today_low
            (applyRollover s env.current_date).today_low_time cp
            env.current_time_str).2
          last_alert_price := (alertPhase (applyRollover s env.current_date).last_alert_price
            (applyRollover s env.current_date).last_price cp env.sendPriceOk).lap
          daily_max_change_events := rangeEventPhase
            (applyRollover s env.current_date).daily_max_change_events
            (updateHigh (applyRollover s env.current_date).today_high
              (applyRollover s env.current_date).today_high_time cp
              env.current_time_str).1
            (updateLow (applyRollover s env.current_date).today_low
              (applyRollover s env.current_date).today_low_time cp
              env.current_time_str).1
            (updateHigh (applyRollover s env.current_date).today_high
              (applyRollover s env.current_date).today_high_time cp
              env.current_time_str).2
            (updateLow (applyRollover s env.current_date).today_low
              (applyRollover s env.current_date).today_low_time cp
              env.current_time_str).2
            cp env.current_date
          last_open_interest := nextOpenInterest env.open_interest
            (applyRollover s env.current_date).last_open_interest
          last_funding_rate := nextFundingRate env.funding_rate
            (applyRollover s env.current_date).last_funding_rate
          liquidation_alerts := (futuresPhase
            (applyRollover s env.current_date).last_open_interest
            (rapidPhase (applyRollover s env.current_date).price_history
              (applyRollover s env.current_date).liquidation_alerts
              env.current_timestamp cp env.current_time_str env.current_date
              env.sendRapidOk).alerts
            env.open_interest env.funding_rate env.current_time_str
            env.current_date env.sendOiOk env.sendFrOk).alerts
          price_history := (rapidPhase (applyRollover s env.current_date).price_history
            (applyRollover s env.current_date).liquidation_alerts
            env.current_timestamp cp env.current_time_str env.current_date
            env.sendRapidOk).history },
       (rapidPhase (applyRollover s env.current_date).price_history
          (applyRollover s env.current_date).liquidation_alerts
          env.current_timestamp cp env.current_time_str env.current_date
          env.sendRapidOk).sends ++
        (alertPhase (applyRollover s env.current_date).last_alert_price
          (applyRollover s env.current_date).last_price cp env.sendPriceOk).sends ++
        (futuresPhase (applyRollover s env.current_date).last_open_interest
          (rapidPhase (applyRollover s env.current_date).price_history
            (applyRollover s env.current_date).liquidation_alerts
            env.current_timestamp cp env.current_time_str env.current_date
            env.sendRapidOk).alerts
          env.open_interest env.funding_rate env.current_time_str
          env.current_date env.sendOiOk env.sendFrOk).sends) := by
  unfold runCycle
  rw [hp]

theorem stepState_getD (s : MonitorState) (env : CycleEnv) :
    stepState s env = ((runCycle s env).1).getD s := by
  unfold stepState
  cases h : (runCycle s env).1 <;> rfl

theorem applyRollover_stable_fields (s : MonitorState) (d : String) :
    (applyRollover s d).last_open_interest = s.last_open_interest ∧
    (applyRollover s d).last_funding_rate = s.last_funding_rate ∧
    (applyRollover s d).last_price = s.last_price ∧
    (applyRollover s d).last_check_date = s.last_check_date := by
  unfold applyRollover
  split <;> simp

unseal Rat.add Rat.sub Rat.mul Rat.inv in
/-- C3 counterexample.  First: the open-interest fetch fails while the
funding fetch returns an anomalous 0.2% — the claim says the funding
band check still runs, but the guard at line 679 skips the entire
detector and nothing is attempted.  Second: with open interest fetched
(1150) and the funding fetch failed, the detector is skipped (no
futures send that cycle) yet `last_open_interest` is NOT preserved: it
moves from 1000 to 1150 at save time. -/
theorem futures_independence_cex :
    FUNDING_RATE_HIGH_THRESHOLD ≤ (2/10 : ℚ) ∧
    futuresPhase (some 1000) [] none (some (2/10)) "12:00" "2026-01-01"
      true true = ⟨[], []⟩ ∧
    (runCycle futuresStateExample futuresEnvExample).2 = [] ∧
    futuresStateExample.last_open_interest = some 1000 ∧
    (stepState futuresStateExample futuresEnvExample).last_open_interest =
      some 1150 := by
  decide

/-- C3 amended: the two futures sub-checks run only when BOTH fetches
succeed; if either the open-interest or the funding fetch is
unavailable the whole detector is skipped for the cycle (no futures
alert attempted, no dedup record appended).  Independently of the
detector, `last_open_interest` / `last_funding_rate` are each updated
to the newly fetched value whenever their own fetch succeeded — even
in a skipped cycle — and carried over unchanged when their fetch
failed. -/
theorem futures_joint_guard_spec :
    (∀ (loi : Option Price) (alerts : List DedupRecord) (fd : Option ℚ)
       (t d : String) (ok1 ok2 : Bool),
       futuresPhase loi alerts none fd t d ok1 ok2 = ⟨alerts, []⟩) ∧
    (∀ (loi : Option Price) (alerts : List DedupRecord) (oi : Option Price)
       (t d : String) (ok1 ok2 : Bool),
       futuresPhase loi alerts oi none t d ok1 ok2 = ⟨alerts, []⟩) ∧
    (∀ (s : MonitorState) (env : CycleEnv) (cp : Price),
       env.price = some cp →
       (stepState s env).last_open_interest =
         nextOpenInterest env.open_interest s.last_open_interest ∧
       (stepState s env).last_funding_rate =
         nextFundingRate env.funding_rate s.last_funding_rate) := by
  refine ⟨?_, ?_, ?_⟩
  · intro loi alerts fd t d ok1 ok2
    cases fd <;> rfl
  · intro loi alerts oi t d ok1 ok2
    cases oi <;> rfl
  · intro s env cp hp
    rw [stepState_getD, runCycle_some s env cp hp]
    exact ⟨by simp [(applyRollover_stable_fields s env.current_date).1],
           by simp [(applyRollover_stable_fields s env.current_date).2.1]⟩

unseal Rat.add Rat.sub Rat.mul Rat.inv in
/-- Witness for the amended C3 at the concrete skipped cycle. -/
theorem futures_joint_guard_spec_witness :
    futuresPhase (some 1000) [] none (some (2/10)) "12:00" "2026-01-01"
      true true = ⟨[], []⟩ ∧
    (stepState futuresStateExample futuresEnvExample).last_open_interest =
      nextOpenInterest futuresEnvExample.open_interest
        futuresStateExample.last_open_interest :=
  ⟨futures_joint_guard_spec.1 (some 1000) [] (some (2/10)) "12:00"
     "2026-01-01" true true,
   (futures_joint_guard_spec.2.2 futuresStateExample futuresEnvExample
     60000 rfl).1⟩

unseal Rat.add Rat.sub Rat.mul Rat.inv in
/-- C4 counterexample: the day's range is 3000 ≥ 2000, the current
price 59000 equals the tracked low, and no event with the pair
(最低价, 59000) exists — the claim says a low event must be recorded,
but because a high event for the current high is already present the
joint dedup check at lines 581-586 suppresses it. -/
theorem rangeEvent_dedup_cex :
    DAILY_MAX_CHANGE_THRESHOLD ≤ (62000:ℚ) - 59000 ∧
    (∀ e ∈ [highEventExample], ¬ (e.type = "最低价" ∧ e.price = (59000:ℚ))) ∧
    rangeEventPhase [highEventExample] (some 62000) (some 59000)
      (some "10:00") (some "11:00") 59000 "2026-01-01" =
      [highEventExample] := by
  decide

/-- C4 amended: when the range crosses the threshold and the current
price equals a tracked extreme, an event for that extreme is recorded
unless some existing event already matches (最高价, today_high) OR
(最低价, today_low) — the dedup check is joint over both current
extremes rather than per (type, price) pair, so a new extreme value of
a given type produces a new event only when the other current extreme
is also unrecorded. -/
theorem rangeEvent_record_spec (events : List RangeEvent) (h l : Price)
    (hiT loT : Option String) (cp : Price) (d : String)
    (hr : DAILY_MAX_CHANGE_THRESHOLD ≤ h - l) :
    (eventExists events h l = true →
       rangeEventPhase events (some h) (some l) hiT loT cp d = events) ∧
    (eventExists events h l = false → cp = h →
       rangeEventPhase events (some h) (some l) hiT loT cp d =
         events ++ [⟨"最高价", h, d ++ " " ++ hiT.getD "None", h - l⟩]) ∧
    (eventExists events h l = false → cp ≠ h → cp = l →
       rangeEventPhase events (some h) (some l) hiT loT cp d =
         events ++ [⟨"最低价", l, d ++ " " ++ loT.getD "None", h - l⟩]) ∧
    (cp ≠ h → cp ≠ l →
       rangeEventPhase events (some h) (some l) hiT loT cp d = events) := by
  unfold rangeEventPhase
  refine ⟨?_, ?_, ?_, ?_⟩
  · intro he
    simp [hr, he]
  · intro he hcp
    simp [hr, he, hcp]
  · intro he hcp hcl
    have hlh : ¬ l = h := by
      intro e
      rw [e, sub_self] at hr
      exact absurd hr (by norm_num [DAILY_MAX_CHANGE_THRESHOLD])
    simp [hr, he, hcp, hcl, hlh]
  · intro hcp hcl
    by_cases he : eventExists events h l <;> simp [hr, he, hcp, hcl]

unseal Rat.add Rat.sub Rat.mul Rat.inv in
/-- Witness for the amended C4: empty event list, current price equal
to the high — the high event is recorded. -/
theorem rangeEvent_record_spec_witness :
    rangeEventPhase [] (some 62000) (some 59000) (some "10:00")
      (some "11:00") 62000 "2026-01-01" =
      [] ++ [⟨"最高价", 62000, "2026-01-01" ++ " " ++
              (some "10:00").getD "None", 62000 - 59000⟩] :=
  (rangeEvent_record_spec [] 62000 59000 (some "10:00") (some "11:00")
    62000 "2026-01-01" (by decide)).2.1 rfl rfl

theorem eventExists_false_elim (events : List RangeEvent) (h l : Price)
    (he : eventExists events h l = false) :
    ∀ e ∈ events, ¬ (e.type = "最高价" ∧ e.price = h) ∧
                  ¬ (e.type = "最低价" ∧ e.price = l) := by
  intro e hmem
  have hx := List.any_eq_false.mp he e hmem
  simp only [Bool.or_eq_true, Bool.and_eq_true, beq_iff_eq, not_or,
    not_and] at hx
  exact ⟨fun hc => hx.1 hc.1 hc.2, fun hc => hx.2 hc.1 hc.2⟩

theorem eventExists_true_of_mem (events : List RangeEvent) (h l : Price)
    (e : RangeEvent) (hmem : e ∈ events)
    (hp : (e.type = "最高价" ∧ e.price = h) ∨ (e.type = "最低价" ∧ e.price = l)) :
    eventExists events h l = true := by
  apply List.any_eq_true.mpr
  refine ⟨e, hmem, ?_⟩
  rcases hp with ⟨h1, h2⟩ | ⟨h1, h2⟩ <;>
    simp [h1, h2]

theorem rangeEventPhase_nodup (events : List RangeEvent) (hi lo : Option Price)
    (hiT loT : Option String) (cp : Price) (d : String)
    (hn : NoDupTypePrice events) :
    NoDupTypePrice (rangeEventPhase events hi lo hiT loT cp d) := by
  unfold rangeEventPhase
  cases hi with
  | none => exact hn
  | some h =>
    cases lo with
    | none => exact hn
    | some l =>
      by_cases hr : DAILY_MAX_CHANGE_THRESHOLD ≤ h - l
      · simp only [hr, if_true]
        by_cases he : eventExists events h l
        · simp only [he, if_true]
          exact hn
        · rw [Bool.not_eq_true] at he
          simp only [he, Bool.false_eq_true, if_false]
          by_cases hch : cp = h
          · simp only [hch, beq_self_eq_true, if_true]
            unfold NoDupTypePrice
            rw [List.pairwise_append]
            refine ⟨hn, List.pairwise_singleton _ _, ?_⟩
            intro a ha b hb
            rw [List.mem_singleton] at hb
            subst hb
            intro hc
            exact (eventExists_false_elim events h l he a ha).1
              ⟨hc.1, hc.2⟩
          · simp only [beq_eq_false_iff_ne.mpr hch, Bool.false_eq_true, if_false]
            by_cases hcl : cp = l
            · simp only [hcl, beq_self_eq_true, if_true]
              unfold NoDupTypePrice
              rw [List.pairwise_append]
              refine ⟨hn, List.pairwise_singleton _ _, ?_⟩
              intro a ha b hb
              rw [List.mem_singleton] at hb
              subst hb
              intro hc
              exact (eventExists_false_elim events h l he a ha).2
                ⟨hc.1, hc.2⟩
            · simp only [beq_eq_false_iff_ne.mpr hcl, Bool.false_eq_true, if_false]
              exact hn
      · simp only [hr, if_false]
        exact hn

theorem applyRollover_nodup (s : MonitorState) (d : String)
    (hn : NoDupTypePrice s.daily_max_change_events) :
    NoDupTypePrice (applyRollover s d).daily_max_change_events := by
  unfold applyRollover
  split
  · exact List.Pairwise.nil
  · exact hn

theorem stepState_nodup (s : MonitorState) (env : CycleEnv)
    (hn : NoDupTypePrice s.daily_max_change_events) :
    NoDupTypePrice (stepState s env).daily_max_change_events := by
  cases hp : env.price with
  | none =>
    rw [stepState_none s env hp]
    exact hn
  | some cp =>
    rw [stepState_getD, runCycle_some s env cp hp]
    simp only [Option.getD_some]
    exact rangeEventPhase_nodup _ _ _ _ _ _ _
      (applyRollover_nodup s env.current_date hn)

/-- C7: no reachable state holds two range events with an identical
(type, price) pair — the recorder preserves pairwise distinctness on
every single call, every run of cycles preserves it from any state
satisfying it, and recording is always suppressed when an event with
the same type and the same current extreme price is already present. -/
theorem rangeEvents_pairwise_distinct :
    (∀ (events : List RangeEvent) (hi lo : Option Price)
       (hiT loT : Option String) (cp : Price) (d : String),
       NoDupTypePrice events →
       NoDupTypePrice (rangeEventPhase events hi lo hiT loT cp d)) ∧
    (∀ (s : MonitorState) (envs : List CycleEnv),
       NoDupTypePrice s.daily_max_change_events →
       NoDupTypePrice (runCycles s envs).daily_max_change_events) ∧
    (∀ (events : List RangeEvent) (h l : Price) (hiT loT : Option String)
       (cp : Price) (d : String) (e : RangeEvent),
       e ∈ events →
       (e.type = "最高价" ∧ e.price = h) ∨ (e.type = "最低价" ∧ e.price = l) →
       rangeEventPhase events (some h) (some l) hiT loT cp d = events) := by
  refine ⟨rangeEventPhase_nodup, ?_, ?_⟩
  · intro s envs
    induction envs generalizing s with
    | nil => intro hn; exact hn
    | cons e es ih =>
      intro hn
      exact ih (stepState s e) (stepState_nodup s e hn)
  · intro events h l hiT loT cp d e hmem hp
    unfold rangeEventPhase
    simp only [eventExists_true_of_mem events h l e hmem hp, if_true]
    split <;> rfl

/-- Witness for C7: a run from the default state keeps the invariant. -/
theorem rangeEvents_pairwise_distinct_witness :
    NoDupTypePrice
      (runCycles defaultMonitorState
        [futuresEnvExample]).daily_max_change_events :=
  rangeEvents_pairwise_distinct.2.1 defaultMonitorState [futuresEnvExample]
    List.Pairwise.nil

theorem rapidPhase_spec (hist : List PricePoint) (alerts : List DedupRecord)
    (now : Timestamp) (cp : Price) (t d : String) (sendOk : Bool) :
    (rapidPhase hist alerts now cp t d sendOk).history =
      rapidHist hist now cp t ∧
    ((rapidPhase hist alerts now cp t d sendOk).sends ≠ [] ↔
      rapidFire hist alerts now cp t) ∧
    (rapidFire hist alerts now cp t →
      (rapidPhase hist alerts now cp t d sendOk).sends =
        [⟨AlertKind.rapid, sendOk, windowPct (rapidWindow hist now cp t) cp⟩] ∧
      (sendOk = true →
        (rapidPhase hist alerts now cp t d sendOk).alerts =
          alerts ++ [⟨rapidKey t, "rapid_change", d ++ " " ++ t,
            windowPct (rapidWindow hist now cp t) cp⟩]) ∧
      (sendOk = false →
        (rapidPhase hist alerts now cp t d sendOk).alerts = alerts)) ∧
    (¬ rapidFire hist alerts now cp t →
      (rapidPhase hist alerts now cp t d sendOk).sends = [] ∧
      (rapidPhase hist alerts now cp t d sendOk).alerts = alerts) := by
  unfold rapidFire rapidWindow rapidHist rapidPhase
  set hist1 := pruneHistory (hist ++ [⟨now, cp, t⟩])
    (now - (RAPID_CHANGE_TIME_WINDOW + 300)) with hh
  by_cases hlen : 2 ≤ hist1.length
  · rcases hw : windowSubset hist1 now with _ | ⟨p0, _ | ⟨p1, rest⟩⟩
    · simp [hlen, hw]
    · simp [hlen, hw]
    · have h2 : 2 ≤ rest.length + 1 + 1 := by omega
      by_cases hth : RAPID_CHANGE_THRESHOLD ≤ |((cp - p0.price) / p0.price) * 100|
      · by_cases hk : (alerts.map (fun a => a.key)).contains (rapidKey t) = true
        · simp at hk
          simp [hlen, hw, hth, hk, windowPct, h2]
        · simp at hk
          have hne : ¬ ∃ a ∈ alerts, a.key = rapidKey t := by simpa using hk
          cases sendOk <;> simp [hlen, hw, hth, hk, hne, windowPct, h2]
      · simp [hlen, hw, hth, windowPct]
  · have hwl : (windowSubset hist1 now).length ≤ hist1.length :=
      List.length_filter_le _ _
    have hnot : ¬ 2 ≤ (windowSubset hist1 now).length := by omega
    simp [hlen, hnot]

theorem applyRollover_same (s : MonitorState) (d : String)
    (hd : s.last_check_date = some d) : applyRollover s d = s := by
  unfold applyRollover
  simp [hd]

theorem rapidDeliveredCount_append (s1 s2 : List SendAttempt) :
    rapidDeliveredCount (s1 ++ s2) =
      rapidDeliveredCount s1 + rapidDeliveredCount s2 := by
  unfold rapidDeliveredCount
  rw [List.filter_append, List.length_append]

theorem alertPhase_rapid_count (lap lp : Option Price) (cp : Price)
    (sendOk : Bool) :
    rapidDeliveredCount (alertPhase lap lp cp sendOk).sends = 0 := by
  rcases lap with _ | b <;> rcases lp with _ | p <;>
    simp only [alertPhase] <;> (repeat' split) <;>
    simp [rapidDeliveredCount]

theorem oiSubCheck_shape (loi : Option Price) (alerts : List DedupRecord)
    (oiV : Price) (t d : String) (ok : Bool) :
    rapidDeliveredCount (oiSubCheck loi alerts oiV t d ok).sends = 0 ∧
    ∃ l2, (oiSubCheck loi alerts oiV t d ok).alerts = alerts ++ l2 := by
  rcases loi with _ | prev <;> simp only [oiSubCheck] <;> (repeat' split) <;>
    refine ⟨by simp [rapidDeliveredCount], ?_⟩ <;>
    first
      | exact ⟨[_], rfl⟩
      | exact ⟨[], by simp⟩

theorem frSubCheck_shape (alerts : List DedupRecord) (fr : ℚ)
    (t d : String) (ok : Bool) :
    rapidDeliveredCount (frSubCheck alerts fr t d ok).sends = 0 ∧
    ∃ l2, (frSubCheck alerts fr t d ok).alerts = alerts ++ l2 := by
  simp only [frSubCheck]
  (repeat' split) <;>
    refine ⟨by simp [rapidDeliveredCount], ?_⟩ <;>
    first
      | exact ⟨[_], rfl⟩
      | exact ⟨[], by simp⟩

theorem futuresPhase_shape (loi : Option Price) (alerts : List DedupRecord)
    (oi : Option Price) (fd : Option ℚ) (t d : String) (ok1 ok2 : Bool) :
    rapidDeliveredCount (futuresPhase loi alerts oi fd t d ok1 ok2).sends = 0 ∧
    ∃ l2, (futuresPhase loi alerts oi fd t d ok1 ok2).alerts = alerts ++ l2 := by
  unfold futuresPhase
  rcases oi with _ | oiV
  · exact ⟨rfl, ⟨[], by simp⟩⟩
  · rcases fd with _ | fr
    · exact ⟨rfl, ⟨[], by simp⟩⟩
    · obtain ⟨hc1, l1, h1⟩ := oiSubCheck_shape loi alerts oiV t d ok1
      obtain ⟨hc2, l2, h2⟩ := frSubCheck_shape
        (oiSubCheck loi alerts oiV t d ok1).alerts fr t d ok2
      constructor
      · show rapidDeliveredCount ((oiSubCheck loi alerts oiV t d ok1).sends ++
          (frSubCheck (oiSubCheck loi alerts oiV t d ok1).alerts
            fr t d ok2).sends) = 0
        rw [rapidDeliveredCount_append, hc1, hc2]
      · refine ⟨l1 ++ l2, ?_⟩
        show (frSubCheck (oiSubCheck loi alerts oiV t d ok1).alerts
          fr t d ok2).alerts = alerts ++ (l1 ++ l2)
        rw [h2, h1, List.append_assoc]

theorem cycle_rapid_bound (s : MonitorState) (env : CycleEnv) (cp : Price)
    (hp : env.price = some cp)
    (hd : s.last_check_date = some env.current_date) :
    rapidDeliveredCount (runCycle s env).2 ≤ 1 ∧
    (rapidKey env.current_time_str ∈
        s.liquidation_alerts.map (fun a => a.key) →
      rapidDeliveredCount (runCycle s env).2 = 0) ∧
    ((0 < rapidDeliveredCount (runCycle s env).2 ∨
      rapidKey env.current_time_str ∈
        s.liquidation_alerts.map (fun a => a.key)) →
      rapidKey env.current_time_str ∈
        (stepState s env).liquidation_alerts.map (fun a => a.key)) ∧
    (stepState s env).last_check_date = some env.current_date := by
  have hroll : applyRollover s env.current_date = s :=
    applyRollover_same s env.current_date hd
  rw [stepState_getD, runCycle_some s env cp hp, hroll]
  simp only [Option.getD_some]
  have hs := rapidPhase_spec s.price_history s.liquidation_alerts
    env.current_timestamp cp env.current_time_str env.current_date
    env.sendRapidOk
  have hfs := futuresPhase_shape s.last_open_interest
    (rapidPhase s.price_history s.liquidation_alerts env.current_timestamp cp
      env.current_time_str env.current_date env.sendRapidOk).alerts
    env.open_interest env.funding_rate env.current_time_str env.current_date
    env.sendOiOk env.sendFrOk
  obtain ⟨l2, hl2⟩ := hfs.2
  have hac := alertPhase_rapid_count s.last_alert_price s.last_price cp
    env.sendPriceOk
  rw [rapidDeliveredCount_append, rapidDeliveredCount_append, hac, hfs.1,
    Nat.add_zero]
  by_cases hfire : rapidFire s.price_history s.liquidation_alerts
    env.current_timestamp cp env.current_time_str
  · obtain ⟨hsends, hokT, hokF⟩ := hs.2.2.1 hfire
    have hkeyfalse := hfire.2.2
    have hnotmem : rapidKey env.current_time_str ∉
        s.liquidation_alerts.map (fun a => a.key) := by
      intro hmem
      rw [List.mem_map] at hmem
      obtain ⟨a, ha, hae⟩ := hmem
      simp at hkeyfalse
      exact (hkeyfalse a ha) hae
    rw [hsends]
    rcases Bool.eq_false_or_eq_true env.sendRapidOk with hso | hso
    · refine ⟨by simp [rapidDeliveredCount, hso],
        fun hmem => absurd hmem hnotmem, ?_, trivial⟩
      intro hpre
      rw [hl2, hokT hso, List.map_append, List.map_append]
      apply List.mem_append_left
      apply List.mem_append_right
      simp
    · refine ⟨by simp [rapidDeliveredCount, hso],
        fun hmem => absurd hmem hnotmem, ?_, trivial⟩
      intro hpre
      rcases hpre with hc | hmem
      · exact absurd hc (by simp [rapidDeliveredCount, hso])
      · exact absurd hmem hnotmem
  · obtain ⟨hsends, halerts⟩ := hs.2.2.2 hfire
    rw [hsends]
    refine ⟨by simp [rapidDeliveredCount],
      fun _ => by simp [rapidDeliveredCount], ?_, trivial⟩
    intro hpre
    rcases hpre with hc | hmem
    · exact absurd hc (by simp [rapidDeliveredCount])
    · rw [hl2, halerts, List.map_append]
      exact List.mem_append_left _ hmem

theorem runSends_rapid (s : MonitorState) (d t : String) (envs : List CycleEnv)
    (he : ∀ e ∈ envs, e.current_date = d ∧ e.current_time_str = t)
    (hd : s.last_check_date = some d) :
    (rapidKey t ∈ s.liquidation_alerts.map (fun a => a.key) →
       rapidDeliveredCount (runSends s envs) = 0) ∧
    rapidDeliveredCount (runSends s envs) ≤ 1 := by
  induction envs generalizing s with
  | nil =>
    constructor
    · intro _
      rfl
    · show rapidDeliveredCount [] ≤ 1
      simp [rapidDeliveredCount]
  | cons e es ih =>
    obtain ⟨hed, het⟩ := he e (List.mem_cons_self e es)
    have hes : ∀ x ∈ es, x.current_date = d ∧ x.current_time_str = t :=
      fun x hx => he x (List.mem_cons_of_mem e hx)
    have hexp : runSends s (e :: es) =
        (runCycle s e).2 ++ runSends (stepState s e) es := rfl
    rcases hpc : e.price with _ | cp
    · rw [hexp, runCycle_none s e hpc, stepState_none s e hpc]
      simpa using ih s hes hd
    · have hcyc := cycle_rapid_bound s e cp hpc (by rw [hed, hd])
      have hstep := ih (stepState s e) hes (by rw [← hed]; exact hcyc.2.2.2)
      rw [hexp, rapidDeliveredCount_append]
      rw [het] at hcyc
      constructor
      · intro hmem
        rw [hcyc.2.1 hmem, hstep.1 (hcyc.2.2.1 (Or.inr hmem))]
      · by_cases hz : rapidDeliveredCount (runCycle s e).2 = 0
        · rw [hz]
          simpa using hstep.2
        · have h1 : rapidDeliveredCount (runCycle s e).2 = 1 := by
            have := hcyc.1
            omega
          have hrest : rapidDeliveredCount (runSends (stepState s e) es) = 0 :=
            hstep.1 (hcyc.2.2.1 (Or.inl (by omega)))
          omega

/-- C6: on each sample the rapid-change detector prunes the history to
`now - (window + 300)` and attempts a send exactly when the one-minute
window subset holds at least two points, the percent change from its
earliest point to the current price reaches 2%, and the per-minute key
`rapid_HH:MM` is not yet recorded; consequently over any run of cycles
within one minute of one day, at most one rapid alert is delivered. -/
theorem rapid_change_spec :
    (∀ (hist : List PricePoint) (alerts : List DedupRecord) (now : Timestamp)
       (cp : Price) (t d : String) (sendOk : Bool),
       (rapidPhase hist alerts now cp t d sendOk).history =
         rapidHist hist now cp t ∧
       ((rapidPhase hist alerts now cp t d sendOk).sends ≠ [] ↔
         rapidFire hist alerts now cp t)) ∧
    (∀ (s : MonitorState) (d t : String) (envs : List CycleEnv),
       (∀ e ∈ envs, e.current_date = d ∧ e.current_time_str = t) →
       s.last_check_date = some d →
       rapidDeliveredCount (runSends s envs) ≤ 1) :=
  ⟨fun hist alerts now cp t d sendOk =>
    ⟨(rapidPhase_spec hist alerts now cp t d sendOk).1,
     (rapidPhase_spec hist alerts now cp t d sendOk).2.1⟩,
   fun s d t envs he hd => (runSends_rapid s d t envs he hd).2⟩

/-- Witness for C6 on a concrete single-cycle run. -/
theorem rapid_change_spec_witness :
    rapidDeliveredCount (runSends futuresStateExample [futuresEnvExample]) ≤ 1 :=
  rapid_change_spec.2 futuresStateExample "2026-01-01" "12:00"
    [futuresEnvExample]
    (by
      intro e he
      rw [List.mem_singleton] at he
      subst he
      exact ⟨rfl, rfl⟩)
    rfl

theorem updateHigh_some (h : Price) (hiT : Option String) (cp : Price)
    (t : String) : (updateHigh (some h) hiT cp t).1 = some (max h cp) := by
  rcases le_or_lt cp h with hc | hc
  · simp [updateHigh, not_lt.mpr hc, max_eq_left hc]
  · simp [updateHigh, hc, max_eq_right hc.le]

theorem updateLow_some (l : Price) (loT : Option String) (cp : Price)
    (t : String) : (updateLow (some l) loT cp t).1 = some (min l cp) := by
  rcases le_or_lt l cp with hc | hc
  · simp [updateLow, not_lt.mpr hc, min_eq_left hc]
  · simp [updateLow, hc, min_eq_right hc.le]

theorem stepState_extremes (s : MonitorState) (env : CycleEnv) (cp M m : Price)
    (hp : env.price = some cp)
    (hd : s.last_check_date = some env.current_date)
    (hh : s.today_high = some M) (hl : s.today_low = some m) :
    (stepState s env).today_high = some (max M cp) ∧
    (stepState s env).today_low = some (min m cp) ∧
    (stepState s env).last_check_date = some env.current_date := by
  rw [stepState_getD, runCycle_some s env cp hp,
    applyRollover_same s env.current_date hd]
  simp only [Option.getD_some]
  exact ⟨by rw [hh, updateHigh_some], by rw [hl, updateLow_some], trivial⟩

theorem stepState_first_extremes (s : MonitorState) (env : CycleEnv)
    (cp : Price) (hp : env.price = some cp)
    (hnew : s.last_check_date ≠ some env.current_date) :
    (stepState s env).today_high = some cp ∧
    (stepState s env).today_low = some cp ∧
    (stepState s env).last_check_date = some env.current_date := by
  rw [stepState_getD, runCycle_some s env cp hp]
  have hro : (applyRollover s env.current_date).today_high = none ∧
      (applyRollover s env.current_date).today_low = none := by
    unfold applyRollover
    rw [if_pos hnew]
    exact ⟨rfl, rfl⟩
  simp only [Option.getD_some]
  exact ⟨by rw [hro.1]; rfl, by rw [hro.2]; rfl, trivial⟩

theorem observedPrices_cons (e : CycleEnv) (es : List CycleEnv) (cp : Price)
    (hp : e.price = some cp) :
    observedPrices (e :: es) = cp :: observedPrices es := by
  unfold observedPrices
  rw [List.filterMap_cons, hp]

theorem runCycles_extremes_aux (d : String) (es : List CycleEnv)
    (hes : ∀ e ∈ es, e.current_date = d ∧ e.price.isSome) :
    ∀ (s : MonitorState) (M m : Price),
    s.last_check_date = some d → s.today_high = some M →
    s.today_low = some m →
    ∃ M2 m2, (runCycles s es).today_high = some M2 ∧
      (runCycles s es).today_low = some m2 ∧
      (M2 = M ∨ M2 ∈ observedPrices es) ∧
      (m2 = m ∨ m2 ∈ observedPrices es) ∧
      M ≤ M2 ∧ m2 ≤ m ∧
      (∀ p ∈ observedPrices es, p ≤ M2 ∧ m2 ≤ p) := by
  induction es with
  | nil =>
    intro s M m hd hh hl
    refine ⟨M, m, hh, hl, Or.inl rfl, Or.inl rfl, le_refl M, le_refl m, ?_⟩
    intro p hp
    simp [observedPrices] at hp
  | cons e es ih =>
    intro s M m hd hh hl
    obtain ⟨hed, hps⟩ := hes e (List.mem_cons_self e es)
    obtain ⟨cp, hcp⟩ := Option.isSome_iff_exists.mp hps
    have hes2 : ∀ x ∈ es, x.current_date = d ∧ x.price.isSome :=
      fun x hx => hes x (List.mem_cons_of_mem e hx)
    have hstep := stepState_extremes s e cp M m hcp (by rw [hed, hd]) hh hl
    have hruns : runCycles s (e :: es) = runCycles (stepState s e) es := rfl
    obtain ⟨M2, m2, h1, h2, h3, h4, h5, h6, h7⟩ :=
      ih hes2 (stepState s e) (max M cp) (min m cp)
        (by rw [← hed]; exact hstep.2.2) hstep.1 hstep.2.1
    rw [observedPrices_cons e es cp hcp]
    refine ⟨M2, m2, by rw [hruns]; exact h1, by rw [hruns]; exact h2,
      ?_, ?_, le_trans (le_max_left M cp) h5,
      le_trans h6 (min_le_left m cp), ?_⟩
    · rcases h3 with h3 | h3
      · rcases max_choice M cp with hx | hx
        · exact Or.inl (by rw [h3, hx])
        · exact Or.inr (by rw [h3, hx]; exact List.mem_cons_self cp _)
      · exact Or.inr (List.mem_cons_of_mem cp h3)
    · rcases h4 with h4 | h4
      · rcases min_choice m cp with hx | hx
        · exact Or.inl (by rw [h4, hx])
        · exact Or.inr (by rw [h4, hx]; exact List.mem_cons_self cp _)
      · exact Or.inr (List.mem_cons_of_mem cp h4)
    · intro p hpm
      rcases List.mem_cons.mp hpm with rfl | hpm
      · exact ⟨le_trans (le_max_right M p) h5, le_trans h6 (min_le_right m p)⟩
      · exact h7 p hpm

/-- C5: over any nonempty sequence of samples of one reporting-day
(the first cycle performing the rollover, every later cycle on the
same date), the tracked `today_high` is the maximum and `today_low`
the minimum of all observed prices, the high being replaced exactly on
strict increase and the low on strict decrease. -/
theorem daily_extremes_max_min (s : MonitorState) (d : String)
    (e0 : CycleEnv) (es : List CycleEnv)
    (h0d : e0.current_date = d) (h0p : e0.price.isSome)
    (hes : ∀ e ∈ es, e.current_date = d ∧ e.price.isSome)
    (hnew : s.last_check_date ≠ some d) :
    ∃ M m, (runCycles s (e0 :: es)).today_high = some M ∧
      (runCycles s (e0 :: es)).today_low = some m ∧
      M ∈ observedPrices (e0 :: es) ∧ m ∈ observedPrices (e0 :: es) ∧
      (∀ p ∈ observedPrices (e0 :: es), p ≤ M ∧ m ≤ p) := by
  obtain ⟨cp0, hcp0⟩ := Option.isSome_iff_exists.mp h0p
  have hfirst := stepState_first_extremes s e0 cp0 hcp0 (by rw [h0d]; exact hnew)
  have hruns : runCycles s (e0 :: es) = runCycles (stepState s e0) es := rfl
  obtain ⟨M2, m2, h1, h2, h3, h4, h5, h6, h7⟩ :=
    runCycles_extremes_aux d es hes (stepState s e0) cp0 cp0
      (by rw [← h0d]; exact hfirst.2.2) hfirst.1 hfirst.2.1
  rw [observedPrices_cons e0 es cp0 hcp0]
  refine ⟨M2, m2, by rw [hruns]; exact h1, by rw [hruns]; exact h2, ?_, ?_, ?_⟩
  · rcases h3 with h3 | h3
    · exact h3 ▸ List.mem_cons_self cp0 _
    · exact List.mem_cons_of_mem cp0 h3
  · rcases h4 with h4 | h4
    · exact h4 ▸ List.mem_cons_self cp0 _
    · exact List.mem_cons_of_mem cp0 h4
  · intro p hpm
    rcases List.mem_cons.mp hpm with rfl | hpm
    · exact ⟨h5, h6⟩
    · exact h7 p hpm

/-- Witness for C5: a one-sample day starting fresh. -/
theorem daily_extremes_max_min_witness :
    ∃ M m, (runCycles defaultMonitorState
        [futuresEnvExample]).today_high = some M ∧
      (runCycles defaultMonitorState [futuresEnvExample]).today_low = some m ∧
      M ∈ observedPrices [futuresEnvExample] ∧
      m ∈ observedPrices [futuresEnvExample] ∧
      (∀ p ∈ observedPrices [futuresEnvExample], p ≤ M ∧ m ≤ p) :=
  daily_extremes_max_min defaultMonitorState "2026-01-01" futuresEnvExample []
    rfl rfl (fun e he => absurd he (List.not_mem_nil e))
    (by simp [defaultMonitorState])
